import Mathlib

/-!
Shallow embedding of the descriptor / algorithm-selection / execution layer of
`nvidia_libs_test/cudnn_util.cc` (repository `zhangjiancai/MachineLearning`).

Dimensions, strides and padding are C `int` values, modelled as `Int`
(the no-overflow semantics of the source's arithmetic); byte counts
(`size_t`) are modelled as `Nat`.  External cuDNN engine entry points are
modelled either as explicit oracle parameters (workspace-size queries,
algorithm search, execution) or, where a claim depends on their documented
behaviour, as definitions marked "Modelled from the spec".
-/

namespace CudnnUtil

/-- `cudnnDataType_t` (the enumerators asserted by the source's
`CHECK_ENUMERATOR` list). -/
inductive DataType
  | float
  | double
  | half
  | int8
  | int32
  | int8x4
  deriving DecidableEq, Repr

/-- `cudnnTensorFormat_t`. -/
inductive TensorFormat
  | nchw
  | nhwc
  | nchwVectC
  deriving DecidableEq, Repr

/-- `CUDNN_DIM_MAX`: the accelerator's dimensionality ceiling. -/
def CUDNN_DIM_MAX : Nat := 8

/-- Structural summary of a tensor descriptor (`TensorDescriptorData`):
element kind, per-axis dimensions and per-axis strides. -/
structure TensorDesc where
  dataType : DataType
  dims : List Int
  strides : List Int
  deriving DecidableEq, Repr

/-- Structural summary of a filter descriptor (`FilterDescriptorData`):
element kind, layout format and per-axis dimensions (no strides). -/
structure FilterDesc where
  dataType : DataType
  format : TensorFormat
  dims : List Int
  deriving DecidableEq, Repr

/-- Structural summary of a convolution descriptor
(`ConvolutionDescriptorData`): per-axis padding, filter stride and dilation,
plus the group count. -/
structure ConvDesc where
  pad : List Int
  filterStride : List Int
  dilation : List Int
  groupCount : Int
  deriving DecidableEq, Repr

/-- A build operation either aborts the process (`CHECK*` macros,
`LOG(FATAL)`) or surfaces a structured status to the caller
(`RETURN_IF_ERROR_STATUS` / `StatusOr`).  Both are failures of the
embedding; the constructor records which channel the source used. -/
inductive BuildFailure
  | fatalCheck (message : String)
  | statusError (message : String)
  deriving DecidableEq, Repr

/-- `CHECK_OK_STATUS(...)`: a non-ok status aborts the process. -/
def checkOkStatus {α : Type} : Except String α → Except BuildFailure α
  | .ok a => .ok a
  | .error e => .error (.fatalCheck e)

/-- `RETURN_IF_ERROR_STATUS(...)`: a non-ok status is returned to the
caller as a structured error. -/
def returnIfErrorStatus {α : Type} : Except String α → Except BuildFailure α
  | .ok a => .ok a
  | .error e => .error (.statusError e)

/-- `GetFullyPackedStrides(dims, rank)`: sweep the axes from last to first,
recording the running stride and multiplying it by the axis dimension
(`for (int i = rank - 1, stride = 1; i >= 0; --i)`). -/
def getFullyPackedStrides (dims : List Int) : List Int :=
  (dims.foldr (fun d acc => (acc.1 * d, acc.1 :: acc.2)) ((1 : Int), ([] : List Int))).2

/-- The running `stride` accumulator of `getFullyPackedStrides` equals the
product of the dimensions it has swept. -/
lemma getFullyPackedStrides_fold_fst (dims : List Int) :
    (dims.foldr (fun d acc => (acc.1 * d, acc.1 :: acc.2)) ((1 : Int), ([] : List Int))).1
      = dims.prod := by
  induction dims with
  | nil => rfl
  | cons d ds ih =>
    simp only [List.foldr_cons, List.prod_cons]
    rw [ih, mul_comm]

lemma getFullyPackedStrides_nil : getFullyPackedStrides [] = [] := rfl

lemma getFullyPackedStrides_cons (d : Int) (ds : List Int) :
    getFullyPackedStrides (d :: ds) = ds.prod :: getFullyPackedStrides ds := by
  simp [getFullyPackedStrides, List.foldr_cons, getFullyPackedStrides_fold_fst]

lemma getFullyPackedStrides_length (dims : List Int) :
    (getFullyPackedStrides dims).length = dims.length := by
  induction dims with
  | nil => rfl
  | cons d ds ih => simp [getFullyPackedStrides_cons, ih]

lemma getFullyPackedStrides_getD (dims : List Int) (i : Nat) (h : i < dims.length) :
    (getFullyPackedStrides dims).getD i 0 = (dims.drop (i + 1)).prod := by
  induction dims generalizing i with
  | nil => simp at h
  | cons d ds ih =>
    cases i with
    | zero => simp [getFullyPackedStrides_cons]
    | succ j =>
      simp only [getFullyPackedStrides_cons, List.getD_cons_succ, List.drop_succ_cons]
      exact ih j (by simpa using h)

/-- Modelled from the spec: the engine's format-aware 4-D stride derivation
used by `cudnnSetTensor4dDescriptor` (not part of the repository source) —
packed NCHW layout, or channel-minor NHWC layout. -/
def format4dStrides (format : TensorFormat) (_n c h w : Int) : List Int :=
  match format with
  | .nchw => [c * h * w, h * w, w, 1]
  | .nhwc => [h * w * c, 1, w * c, c]
  | .nchwVectC => [c * h * w, h * w, w, 1]

/-- Modelled from the spec: the engine's descriptor-population call
`cudnnSetTensorNdDescriptor` (not part of the repository source) — validates
positive dimensions and the rank ceiling, then records all fields; a
violation yields a non-ok status. -/
def cudnnSetTensorNdDescriptor (dataType : DataType) (dims strides : List Int) :
    Except String TensorDesc :=
  if (dims.all fun d => 0 < d) ∧ dims.length ≤ CUDNN_DIM_MAX then
    .ok ⟨dataType, dims, strides⟩
  else
    .error "cuDNN error 'CUDNN_STATUS_BAD_PARAM'"

/-- Modelled from the spec: the engine's 4-D descriptor-population call
`cudnnSetTensor4dDescriptor` (not part of the repository source) — validates
positive dimensions and derives the strides from the named format. -/
def cudnnSetTensor4dDescriptor (format : TensorFormat) (dataType : DataType)
    (n c h w : Int) : Except String TensorDesc :=
  if 0 < n ∧ 0 < c ∧ 0 < h ∧ 0 < w then
    .ok ⟨dataType, [n, c, h, w], format4dStrides format n c h w⟩
  else
    .error "cuDNN error 'CUDNN_STATUS_BAD_PARAM'"

/-- Modelled from the spec: the engine's filter descriptor-population call
`cudnnSetFilterNdDescriptor` (not part of the repository source). -/
def cudnnSetFilterNdDescriptor (dataType : DataType) (format : TensorFormat)
    (dims : List Int) : Except String FilterDesc :=
  if (dims.all fun d => 0 < d) ∧ dims.length ≤ CUDNN_DIM_MAX then
    .ok ⟨dataType, format, dims⟩
  else
    .error "cuDNN error 'CUDNN_STATUS_BAD_PARAM'"

/-- `proto::TensorDescriptor`: the tensor configuration record.  `dataType`
and `format` are `oneof` fields (`none` means the case is unset). -/
structure TensorConfig where
  dataType : Option DataType
  dimension : List Int
  stride : List Int
  format : Option TensorFormat
  deriving DecidableEq, Repr

/-- `proto::FilterDescriptor`: the filter configuration record. -/
structure FilterConfig where
  dataType : Option DataType
  format : Option TensorFormat
  dimension : List Int
  deriving DecidableEq, Repr

/-- `CreateTensorDescriptor(proto)`: checks the data type is set and that
exactly one of {strides, format} is given (both are `CHECK`s, i.e. fatal);
then populates the descriptor through the explicit-stride path, the 4-D
format path, or the derived fully-packed path (which requires NCHW). -/
def createTensorDescriptor (proto : TensorConfig) : Except BuildFailure TensorDesc :=
  match proto.dataType with
  | none => .error (.fatalCheck "data_type_oneof_case is not kDataType")
  | some dataType =>
    if proto.stride.isEmpty = proto.format.isSome then
      if proto.stride.isEmpty = false then
        if proto.dimension.length = proto.stride.length then
          checkOkStatus (cudnnSetTensorNdDescriptor dataType proto.dimension proto.stride)
        else .error (.fatalCheck "rank does not equal stride_size")
      else if proto.dimension.length = 4 then
        checkOkStatus (cudnnSetTensor4dDescriptor (proto.format.getD .nchw) dataType
          (proto.dimension.getD 0 0) (proto.dimension.getD 1 0)
          (proto.dimension.getD 2 0) (proto.dimension.getD 3 0))
      else if proto.format.getD .nchw = TensorFormat.nchw then
        checkOkStatus (cudnnSetTensorNdDescriptor dataType proto.dimension
          (getFullyPackedStrides proto.dimension))
      else .error (.fatalCheck "format is not TENSOR_NCHW")
    else .error (.fatalCheck "exactly one of stride and format must be given")

/-- `CreateFilterDescriptor(proto)`: checks the data type and format are set
(fatal `CHECK`s) and populates the native descriptor with the dimensions
directly; no stride inference. -/
def createFilterDescriptor (proto : FilterConfig) : Except BuildFailure FilterDesc :=
  match proto.dataType, proto.format with
  | some dataType, some format =>
    checkOkStatus (cudnnSetFilterNdDescriptor dataType format proto.dimension)
  | _, _ => .error (.fatalCheck "data_type and format must both be given")

/-- `GetTensorNumElements(tensor)`: starts from 1 and adds
`(dimensions[i] - 1) * strides[i]` for every axis `i < rank` (the address
span of the last addressable element, plus one). -/
def getTensorNumElements (tensor : TensorDesc) : Int :=
  (tensor.dims.zip tensor.strides).foldl (fun result ds => result + (ds.1 - 1) * ds.2) 1

/-- `GetFilterNumElements(filter)`: starts from 1 and multiplies by
`dimensions[i]` for every axis `i < rank`. -/
def getFilterNumElements (filter : FilterDesc) : Int :=
  filter.dims.foldl (fun result d => result * d) 1

/-- A device buffer as produced by `CreateDeviceData<T>`: its element kind
and the number of elements requested from the allocator. -/
structure DeviceData where
  elementKind : DataType
  numElements : Int
  deriving DecidableEq, Repr

/-- `CreateDeviceDataHelper(data_type, num_elements, ...)`: dispatches on
the element kind (float, double, half supported; anything else hits
`LOG(FATAL)`) and allocates `num_elements` elements of that kind. -/
def createDeviceDataHelper (dataType : DataType) (numElements : Int) :
    Except BuildFailure DeviceData :=
  match dataType with
  | .float => .ok ⟨.float, numElements⟩
  | .double => .ok ⟨.double, numElements⟩
  | .half => .ok ⟨.half, numElements⟩
  | _ => .error (.fatalCheck "Not yet supported")

/-- `CreateTensorData(tensor, ...)`: sizes the buffer by
`GetTensorNumElements` (the address-span formula). -/
def createTensorData (tensor : TensorDesc) : Except BuildFailure DeviceData :=
  createDeviceDataHelper tensor.dataType (getTensorNumElements tensor)

/-- `CreateFilterData(filter, ...)`: sizes the buffer by
`GetFilterNumElements` (the plain dimension product). -/
def createFilterData (filter : FilterDesc) : Except BuildFailure DeviceData :=
  createDeviceDataHelper filter.dataType (getFilterNumElements filter)

/-- `GetAvailableDeviceMemoryBytes()`: `max(limit, allocated) - allocated`,
with the configured process-wide limit and the allocator's current ledger
passed explicitly (they are globals in the source). -/
def getAvailableDeviceMemoryBytes (deviceMemoryLimitBytes allocated : Nat) : Nat :=
  max deviceMemoryLimitBytes allocated - allocated

/-- `GetWorkspaceLimit(proto)`: with no configured cap
(`workspace_oneof_case() != kWorkspaceLimit`) returns the available bytes;
with a cap, errors if the cap exceeds the available bytes and otherwise
returns the cap.  `workspaceLimit` is the optional configured cap. -/
def getWorkspaceLimit (workspaceLimit : Option Nat)
    (deviceMemoryLimitBytes allocated : Nat) : Except String Nat :=
  let available := getAvailableDeviceMemoryBytes deviceMemoryLimitBytes allocated
  match workspaceLimit with
  | none => .ok available
  | some limit =>
    if limit > available then
      .error ("Workspace limit (" ++ toString limit
        ++ " bytes) is larger than available memory (" ++ toString available ++ " bytes)")
    else .ok limit

/-- Modelled from the spec: the engine's closed-form 4-D forward output
dimension (`cudnnGetConvolution2dForwardOutputDim`, not part of the
repository source): `1 + (input + 2*pad - ((filter-1)*dilation + 1)) / stride`. -/
def conv2dForwardOutputDim (inputDim filterDim pad convStride dilation : Int) : Int :=
  1 + (inputDim + 2 * pad - ((filterDim - 1) * dilation + 1)) / convStride

/-- The output dimension loop of `CreateOutputDescriptor`'s non-4-D branch:
axis 0 is the input batch dimension, axis 1 is the filter's first dimension,
and each further axis `i` is `input[i] + 2*pad[i-2] - filter[i] + 1`. -/
def computeOutputDimensions (inputDims filterDims pad : List Int) : List Int :=
  (List.range inputDims.length).map fun i =>
    if i = 0 then inputDims.getD 0 0
    else if i = 1 then filterDims.getD 0 0
    else inputDims.getD i 0 + 2 * pad.getD (i - 2) 0 - filterDims.getD i 0 + 1

/-- `CreateOutputDescriptor(format, input, filter, convolution)`: rank-4
inputs use the engine's closed-form output shape and the 4-D population
path; other ranks require NCHW output format (structured error otherwise),
NCHW filter format, all-ones dilation and stride and group count 1 (fatal
`CHECK`s otherwise), and derive the output dimensions and fully-packed
strides directly. -/
def createOutputDescriptor (format : TensorFormat) (input : TensorDesc)
    (filter : FilterDesc) (convolution : ConvDesc) : Except BuildFailure TensorDesc :=
  if input.dims.length = 4 then
    returnIfErrorStatus (cudnnSetTensor4dDescriptor format input.dataType
      (input.dims.getD 0 0) (filter.dims.getD 0 0)
      (conv2dForwardOutputDim (input.dims.getD 2 0) (filter.dims.getD 2 0)
        (convolution.pad.getD 0 0) (convolution.filterStride.getD 0 0)
        (convolution.dilation.getD 0 0))
      (conv2dForwardOutputDim (input.dims.getD 3 0) (filter.dims.getD 3 0)
        (convolution.pad.getD 1 0) (convolution.filterStride.getD 1 0)
        (convolution.dilation.getD 1 0)))
  else if format ≠ TensorFormat.nchw then
    .error (.statusError "Can only create NCHW for non-4D output descriptor.")
  else if filter.format ≠ TensorFormat.nchw then
    .error (.fatalCheck "not supported")
  else if (convolution.dilation.all fun value => value == 1) = false then
    .error (.fatalCheck "not supported")
  else if (convolution.filterStride.all fun value => value == 1) = false then
    .error (.fatalCheck "not supported")
  else if convolution.groupCount ≠ 1 then
    .error (.fatalCheck "not supported")
  else
    let outputDimensions := computeOutputDimensions input.dims filter.dims convolution.pad
    returnIfErrorStatus (cudnnSetTensorNdDescriptor input.dataType outputDimensions
      (getFullyPackedStrides outputDimensions))

/-- `proto::ConvolutionDirection`. -/
inductive ConvolutionDirection
  | fwd
  | bwdData
  | bwdFilter
  deriving DecidableEq, Repr

/-- The `ConvolutionAlgo` variant: a direction-tagged algorithm identifier
(`cudnnConvolutionFwdAlgo_t` / `cudnnConvolutionBwdDataAlgo_t` /
`cudnnConvolutionBwdFilterAlgo_t` values, as numeric identifiers). -/
inductive ConvolutionAlgo
  | fwd (id : Nat)
  | bwdData (id : Nat)
  | bwdFilter (id : Nat)
  deriving DecidableEq, Repr

/-- The numeric identifier carried by a `ConvolutionAlgo`. -/
def ConvolutionAlgo.algoId : ConvolutionAlgo → Nat
  | .fwd id => id
  | .bwdData id => id
  | .bwdFilter id => id

/-- `CUDNN_CONVOLUTION_FWD_ALGO_COUNT` (pinned by the source's
`CHECK_ENUM_SIZE(ConvolutionFwdAlgo, CONVOLUTION_FWD_ALGO)`). -/
def CUDNN_CONVOLUTION_FWD_ALGO_COUNT : Nat := 8

/-- `CUDNN_CONVOLUTION_BWD_DATA_ALGO_COUNT` (pinned by the source's
enum-size assertion). -/
def CUDNN_CONVOLUTION_BWD_DATA_ALGO_COUNT : Nat := 6

/-- `CUDNN_CONVOLUTION_BWD_FILTER_ALGO_COUNT` (pinned by the source's
enum-size assertion). -/
def CUDNN_CONVOLUTION_BWD_FILTER_ALGO_COUNT : Nat := 7

/-- The direction's identifier-space size, as dispatched by
`GetSupportedConvolutionAlgos`. -/
def directionAlgoCount : ConvolutionDirection → Nat
  | .fwd => CUDNN_CONVOLUTION_FWD_ALGO_COUNT
  | .bwdData => CUDNN_CONVOLUTION_BWD_DATA_ALGO_COUNT
  | .bwdFilter => CUDNN_CONVOLUTION_BWD_FILTER_ALGO_COUNT

/-- The direction's `static_cast<T>(i)`: tag a numeric identifier with the
direction's variant constructor. -/
def mkDirectionAlgo : ConvolutionDirection → Nat → ConvolutionAlgo
  | .fwd => ConvolutionAlgo.fwd
  | .bwdData => ConvolutionAlgo.bwdData
  | .bwdFilter => ConvolutionAlgo.bwdFilter

/-- `GetSupportedConvolutionAlgosImpl<T>`: for every identifier value
`0 <= i < num_elements`, query the workspace size (`GetWorkspaceSize` is an
engine call, passed as an oracle) and push the algorithm iff the query
succeeds and its size is within the workspace limit. -/
def getSupportedConvolutionAlgosImpl (mk : Nat → ConvolutionAlgo)
    (getWorkspaceSize : ConvolutionAlgo → Except String Nat)
    (workspaceLimit : Nat) (numElements : Nat) : List ConvolutionAlgo :=
  (List.range numElements).filterMap fun i =>
    let algo := mk i
    match getWorkspaceSize algo with
    | .ok size => if size ≤ workspaceLimit then some algo else none
    | .error _ => none

/-- `GetSupportedConvolutionAlgos`: dispatches on the direction with the
direction's identifier count. -/
def getSupportedConvolutionAlgos (direction : ConvolutionDirection)
    (getWorkspaceSize : ConvolutionAlgo → Except String Nat)
    (workspaceLimit : Nat) : List ConvolutionAlgo :=
  match direction with
  | .fwd => getSupportedConvolutionAlgosImpl ConvolutionAlgo.fwd getWorkspaceSize
      workspaceLimit CUDNN_CONVOLUTION_FWD_ALGO_COUNT
  | .bwdData => getSupportedConvolutionAlgosImpl ConvolutionAlgo.bwdData getWorkspaceSize
      workspaceLimit CUDNN_CONVOLUTION_BWD_DATA_ALGO_COUNT
  | .bwdFilter => getSupportedConvolutionAlgosImpl ConvolutionAlgo.bwdFilter getWorkspaceSize
      workspaceLimit CUDNN_CONVOLUTION_BWD_FILTER_ALGO_COUNT

/-- `cudnnStatus_t`, as consumed by `GetStatus`: success, or a named error
code. -/
inductive CudnnStatus
  | success
  | error (code : String)
  deriving DecidableEq, Repr

/-- `GetStatus(cudnnStatus_t)`: success maps to an ok status, anything else
wraps the native error string. -/
def getStatus : CudnnStatus → Except String Unit
  | .success => .ok ()
  | .error code => .error ("cuDNN error '" ++ code ++ "'")

/-- A `cudnn*AlgoPerf_t` record: the per-candidate status and the candidate
algorithm's numeric identifier. -/
structure AlgoPerf where
  status : CudnnStatus
  algo : Nat
  deriving DecidableEq, Repr

/-- The outputs of one `cudnnFind*AlgorithmEx` call: the call's own status,
the returned algorithm count, and the (single) performance record. -/
structure FindAlgoResult where
  callStatus : CudnnStatus
  returnedAlgoCount : Nat
  perf : AlgoPerf
  deriving DecidableEq, Repr

/-- `ToConvolutionAlgo(algo_perf, num_algorithms)`: "No supported algorithm"
when the engine returned zero results or a non-success candidate status;
otherwise the candidate's identifier tagged with the direction's variant. -/
def toConvolutionAlgo (mk : Nat → ConvolutionAlgo) (algoPerf : AlgoPerf)
    (numAlgorithms : Nat) : Except String ConvolutionAlgo :=
  if numAlgorithms = 0 ∨ algoPerf.status ≠ CudnnStatus.success then
    .error "No supported algorithm"
  else .ok (mk algoPerf.algo)

/-- `FindConvolutionAlgo`: allocates a workspace of `workspace_limit` bytes
(`AllocateDeviceMemory`, an allocator oracle), then asks the engine
(`cudnnFind*AlgorithmEx`, an oracle taking the direction, the requested
candidate count, and the workspace byte budget) for exactly one candidate,
and converts the result through `toConvolutionAlgo`. -/
def findConvolutionAlgo (allocateDeviceMemory : Nat → Except String Unit)
    (findAlgorithmEx : ConvolutionDirection → Nat → Nat → FindAlgoResult)
    (direction : ConvolutionDirection) (workspaceLimit : Nat) :
    Except String ConvolutionAlgo :=
  match allocateDeviceMemory workspaceLimit with
  | .error e => .error e
  | .ok _ =>
    match direction with
    | .fwd =>
      let result := findAlgorithmEx .fwd 1 workspaceLimit
      match getStatus result.callStatus with
      | .error e => .error e
      | .ok _ => toConvolutionAlgo ConvolutionAlgo.fwd result.perf result.returnedAlgoCount
    | .bwdData =>
      let result := findAlgorithmEx .bwdData 1 workspaceLimit
      match getStatus result.callStatus with
      | .error e => .error e
      | .ok _ => toConvolutionAlgo ConvolutionAlgo.bwdData result.perf result.returnedAlgoCount
    | .bwdFilter =>
      let result := findAlgorithmEx .bwdFilter 1 workspaceLimit
      match getStatus result.callStatus with
      | .error e => .error e
      | .ok _ => toConvolutionAlgo ConvolutionAlgo.bwdFilter result.perf result.returnedAlgoCount

/-- The `ScalingFactor` union: the value is stored in its `double` member
for double element kinds and in its `float` member otherwise.  (The numeric
narrowing of the float case is not modelled; only the storage width is.) -/
inductive ScalingFactor
  | floatValue (value : Rat)
  | doubleValue (value : Rat)
  deriving DecidableEq, Repr

/-- The private `ScalingFactor(value, data_type)` constructor: double
storage iff the relevant element kind is double. -/
def mkScalingFactor (value : Rat) (dataType : DataType) : ScalingFactor :=
  if dataType = DataType.double then .doubleValue value
  else .floatValue value

/-- Whether a `ScalingFactor` is stored as a 64-bit value. -/
def ScalingFactor.isDouble : ScalingFactor → Bool
  | .doubleValue _ => true
  | .floatValue _ => false

/-- One engine invocation issued by `RunConvolution`'s visitor: which entry
point was called and the scaling factors it was handed. -/
structure ConvolutionEngineCall where
  direction : ConvolutionDirection
  alphaScale : ScalingFactor
  betaScale : ScalingFactor
  workspaceSize : Nat
  deriving DecidableEq, Repr

/-- The call built by `RunConvolution`'s visitor: forward scales by the
output descriptor's kind and calls `cudnnConvolutionForward`; backward-data
scales by the input descriptor's kind and calls
`cudnnConvolutionBackwardData`; backward-filter scales by the filter
descriptor's kind and calls `cudnnConvolutionBackwardFilter`. -/
def runConvolutionCall (algo : ConvolutionAlgo) (alpha beta : Rat)
    (inputDesc : TensorDesc) (filterDesc : FilterDesc) (outputDesc : TensorDesc)
    (workspaceSize : Nat) : ConvolutionEngineCall :=
  match algo with
  | .fwd _ =>
    { direction := ConvolutionDirection.fwd
      alphaScale := mkScalingFactor alpha outputDesc.dataType
      betaScale := mkScalingFactor beta outputDesc.dataType
      workspaceSize := workspaceSize }
  | .bwdData _ =>
    { direction := ConvolutionDirection.bwdData
      alphaScale := mkScalingFactor alpha inputDesc.dataType
      betaScale := mkScalingFactor beta inputDesc.dataType
      workspaceSize := workspaceSize }
  | .bwdFilter _ =>
    { direction := ConvolutionDirection.bwdFilter
      alphaScale := mkScalingFactor alpha filterDesc.dataType
      betaScale := mkScalingFactor beta filterDesc.dataType
      workspaceSize := workspaceSize }

/-- `RunConvolution`: issues the visitor's engine call (the engine is an
oracle from calls to native statuses) and converts the status. -/
def runConvolution (engine : ConvolutionEngineCall → CudnnStatus)
    (algo : ConvolutionAlgo) (alpha beta : Rat) (inputDesc : TensorDesc)
    (filterDesc : FilterDesc) (outputDesc : TensorDesc) (workspaceSize : Nat) :
    Except String Unit :=
  getStatus (engine (runConvolutionCall algo alpha beta inputDesc filterDesc
    outputDesc workspaceSize))

/-- Whether a build result went through the structured-status channel (ok,
or a `statusError`) as opposed to the fatal `CHECK` channel. -/
def isStructuredBuildResult {α : Type} : Except BuildFailure α → Bool
  | .error (.fatalCheck _) => false
  | _ => true

/-! ## Helper lemmas -/

lemma foldl_add_eq (f : Int × Int → Int) (l : List (Int × Int)) (a : Int) :
    l.foldl (fun r p => r + f p) a = a + (l.map f).sum := by
  induction l generalizing a with
  | nil => simp
  | cons p l ih => simp [ih, add_assoc]

lemma foldl_mul_eq (l : List Int) (a : Int) :
    l.foldl (fun r d => r * d) a = a * l.prod := by
  induction l generalizing a with
  | nil => simp
  | cons d l ih => simp [ih, mul_assoc]

lemma zip_map_eq_zipWith (l₁ l₂ : List Int) :
    ((l₁.zip l₂).map fun p => (p.1 - 1) * p.2)
      = List.zipWith (fun d s => (d - 1) * s) l₁ l₂ := by
  induction l₁ generalizing l₂ with
  | nil => simp
  | cons a l ih =>
    cases l₂ with
    | nil => simp
    | cons b l₂ => simp [ih]

lemma getTensorNumElements_eq_sum (tensor : TensorDesc) :
    getTensorNumElements tensor
      = 1 + (List.zipWith (fun d s => (d - 1) * s) tensor.dims tensor.strides).sum := by
  rw [getTensorNumElements, foldl_add_eq, zip_map_eq_zipWith]

lemma packed_span_eq_prod (dims : List Int) :
    1 + (List.zipWith (fun d s => (d - 1) * s) dims (getFullyPackedStrides dims)).sum
      = dims.prod := by
  induction dims with
  | nil => simp
  | cons d ds ih =>
    rw [getFullyPackedStrides_cons]
    simp only [List.zipWith_cons_cons, List.sum_cons, List.prod_cons]
    have hS : (List.zipWith (fun d s => (d - 1) * s) ds (getFullyPackedStrides ds)).sum
        = ds.prod - 1 := by linarith [ih]
    rw [hS]; ring

lemma eq_four_of_length (l : List Int) (h : l.length = 4) :
    l = [l.getD 0 0, l.getD 1 0, l.getD 2 0, l.getD 3 0] := by
  rcases l with _ | ⟨a, _ | ⟨b, _ | ⟨c, _ | ⟨d, rest⟩⟩⟩⟩ <;> simp_all

/-- The non-4-D, no-strides branch of `createTensorDescriptor` populates
the descriptor with the configured dimensions and the derived fully-packed
strides. -/
lemma createTensorDescriptor_packed_path (proto : TensorConfig) (d : TensorDesc)
    (hstride : proto.stride = [])
    (hformat : proto.format = some TensorFormat.nchw)
    (hnot4 : proto.dimension.length ≠ 4)
    (hok : createTensorDescriptor proto = .ok d) :
    d.dims = proto.dimension ∧ d.strides = getFullyPackedStrides proto.dimension := by
  cases hdt : proto.dataType with
  | none => rw [createTensorDescriptor, hdt] at hok; cases hok
  | some dataType =>
    by_cases hvalid : (proto.dimension.all fun v => 0 < v)
        ∧ proto.dimension.length ≤ CUDNN_DIM_MAX
    · have hset : cudnnSetTensorNdDescriptor dataType proto.dimension
          (getFullyPackedStrides proto.dimension)
          = .ok ⟨dataType, proto.dimension, getFullyPackedStrides proto.dimension⟩ := by
        rw [cudnnSetTensorNdDescriptor, if_pos hvalid]
      rw [createTensorDescriptor, hdt] at hok
      simp only [hstride, hformat, List.isEmpty_nil, Option.isSome_some, if_neg hnot4,
        Option.getD_some, hset, checkOkStatus] at hok
      simp only [if_true, Bool.true_eq_false, if_false] at hok
      cases hok
      exact ⟨rfl, rfl⟩
    · have hset : cudnnSetTensorNdDescriptor dataType proto.dimension
          (getFullyPackedStrides proto.dimension)
          = .error "cuDNN error 'CUDNN_STATUS_BAD_PARAM'" := by
        rw [cudnnSetTensorNdDescriptor, if_neg hvalid]
      rw [createTensorDescriptor, hdt] at hok
      simp only [hstride, hformat, List.isEmpty_nil, Option.isSome_some, if_neg hnot4,
        Option.getD_some, hset, checkOkStatus] at hok
      simp at hok

/-- The 4-D, no-strides branch of `createTensorDescriptor` populates the
descriptor with the configured dimensions and the format-derived strides. -/
lemma createTensorDescriptor_4d_path (proto : TensorConfig) (d : TensorDesc)
    (format : TensorFormat)
    (hstride : proto.stride = [])
    (hformat : proto.format = some format)
    (h4 : proto.dimension.length = 4)
    (hok : createTensorDescriptor proto = .ok d) :
    d.dims = proto.dimension ∧
    d.strides = format4dStrides format (proto.dimension.getD 0 0)
      (proto.dimension.getD 1 0) (proto.dimension.getD 2 0) (proto.dimension.getD 3 0) := by
  cases hdt : proto.dataType with
  | none => rw [createTensorDescriptor, hdt] at hok; cases hok
  | some dataType =>
    by_cases hvalid : 0 < proto.dimension.getD 0 0 ∧ 0 < proto.dimension.getD 1 0
        ∧ 0 < proto.dimension.getD 2 0 ∧ 0 < proto.dimension.getD 3 0
    · have hset : cudnnSetTensor4dDescriptor format dataType (proto.dimension.getD 0 0)
          (proto.dimension.getD 1 0) (proto.dimension.getD 2 0) (proto.dimension.getD 3 0)
          = .ok ⟨dataType, [proto.dimension.getD 0 0, proto.dimension.getD 1 0,
              proto.dimension.getD 2 0, proto.dimension.getD 3 0],
            format4dStrides format (proto.dimension.getD 0 0) (proto.dimension.getD 1 0)
              (proto.dimension.getD 2 0) (proto.dimension.getD 3 0)⟩ := by
        rw [cudnnSetTensor4dDescriptor, if_pos hvalid]
      rw [createTensorDescriptor, hdt] at hok
      simp only [hstride, hformat, List.isEmpty_nil, Option.isSome_some, if_pos h4,
        Option.getD_some, hset, checkOkStatus] at hok
      simp only [if_true, Bool.true_eq_false, if_false] at hok
      cases hok
      exact ⟨(eq_four_of_length proto.dimension h4).symm, rfl⟩
    · have hset : cudnnSetTensor4dDescriptor format dataType (proto.dimension.getD 0 0)
          (proto.dimension.getD 1 0) (proto.dimension.getD 2 0) (proto.dimension.getD 3 0)
          = .error "cuDNN error 'CUDNN_STATUS_BAD_PARAM'" := by
        rw [cudnnSetTensor4dDescriptor, if_neg hvalid]
      rw [createTensorDescriptor, hdt] at hok
      simp only [hstride, hformat, List.isEmpty_nil, Option.isSome_some, if_pos h4,
        Option.getD_some, hset, checkOkStatus] at hok
      simp at hok

/-! ## Claim theorems -/

/-- C4: `GetAvailableDeviceMemoryBytes` equals
`max(limit, currentlyAllocated) - currentlyAllocated`; the result is zero
(never negative) when allocation reaches or exceeds the limit; and after
allocating `k` more bytes the result is the previous result minus `k`,
clamped at zero. -/
theorem getAvailableDeviceMemoryBytes_spec (limitBytes allocated k : Nat) :
    getAvailableDeviceMemoryBytes limitBytes allocated
      = max limitBytes allocated - allocated ∧
    (limitBytes ≤ allocated → getAvailableDeviceMemoryBytes limitBytes allocated = 0) ∧
    ((getAvailableDeviceMemoryBytes limitBytes (allocated + k) : Int)
      = max ((getAvailableDeviceMemoryBytes limitBytes allocated : Int) - (k : Int)) 0) := by
  refine ⟨rfl, ?_, ?_⟩ <;> simp only [getAvailableDeviceMemoryBytes] <;> omega

/-- Witness for C4 at limit 10, allocation 7, further allocation 5: the
budget is 3 before and 0 (clamped) after. -/
theorem getAvailableDeviceMemoryBytes_spec_witness :
    getAvailableDeviceMemoryBytes 10 7 = max 10 7 - 7 ∧
    (10 ≤ (12 : Nat) → getAvailableDeviceMemoryBytes 10 12 = 0) ∧
    ((getAvailableDeviceMemoryBytes 10 (7 + 5) : Int)
      = max ((getAvailableDeviceMemoryBytes 10 7 : Int) - (5 : Int)) 0) :=
  ⟨(getAvailableDeviceMemoryBytes_spec 10 7 5).1,
   fun _ => (getAvailableDeviceMemoryBytes_spec 10 12 0).2.1 (by decide),
   (getAvailableDeviceMemoryBytes_spec 10 7 5).2.2⟩

/-- C5: `GetWorkspaceLimit` errors iff an explicit cap exceeds the
available bytes; an in-budget explicit cap is returned as-is; no cap
returns the available bytes; and every success result is bounded by the
available bytes. -/
theorem getWorkspaceLimit_spec (cap : Option Nat) (limitBytes allocated : Nat) :
    ((∃ e, getWorkspaceLimit cap limitBytes allocated = .error e) ↔
      (∃ c, cap = some c ∧ getAvailableDeviceMemoryBytes limitBytes allocated < c)) ∧
    (∀ c, cap = some c → c ≤ getAvailableDeviceMemoryBytes limitBytes allocated →
      getWorkspaceLimit cap limitBytes allocated = .ok c) ∧
    (cap = none → getWorkspaceLimit cap limitBytes allocated
      = .ok (getAvailableDeviceMemoryBytes limitBytes allocated)) ∧
    (∀ v, getWorkspaceLimit cap limitBytes allocated = .ok v →
      v ≤ getAvailableDeviceMemoryBytes limitBytes allocated) := by
  cases cap with
  | none =>
    refine ⟨?_, ?_, ?_, ?_⟩
    · simp [getWorkspaceLimit]
    · intro c hc; exact absurd hc (by simp)
    · intro _; rfl
    · intro v hv
      simp only [getWorkspaceLimit] at hv
      cases hv; exact le_refl _
  | some c =>
    by_cases h : c > getAvailableDeviceMemoryBytes limitBytes allocated
    · refine ⟨?_, ?_, ?_, ?_⟩
      · simp only [getWorkspaceLimit, if_pos h]
        exact ⟨fun _ => ⟨c, rfl, h⟩, fun _ => ⟨_, rfl⟩⟩
      · intro c' hc' hle; cases hc'; omega
      · intro hn; cases hn
      · intro v hv; simp only [getWorkspaceLimit, if_pos h] at hv; cases hv
    · refine ⟨?_, ?_, ?_, ?_⟩
      · simp only [getWorkspaceLimit, if_neg h]
        constructor
        · rintro ⟨e, he⟩; cases he
        · rintro ⟨c', hc', hlt⟩; cases hc'; omega
      · intro c' hc' hle; cases hc'; simp only [getWorkspaceLimit, if_neg h]
      · intro hn; cases hn
      · intro v hv; simp only [getWorkspaceLimit, if_neg h] at hv
        cases hv; omega

/-- Witness for C5: an explicit cap of 4 within an available budget of 6
(limit 10, allocated 4) resolves to 4. -/
theorem getWorkspaceLimit_spec_witness :
    getWorkspaceLimit (some 4) 10 4 = .ok 4 :=
  (getWorkspaceLimit_spec (some 4) 10 4).2.1 4 rfl (by decide)

/-- C9: `GetTensorNumElements` is `1 + sum_i (dim[i] - 1) * stride[i]` (the
address span of the last addressable element plus one); for a fully-packed
tensor this is exactly the dimension product, while for the strided
(overlapping) layout dims [2,2], strides [4,1] it differs from the product. -/
theorem getTensorNumElements_spec (tensor : TensorDesc) :
    getTensorNumElements tensor
      = 1 + (List.zipWith (fun d s => (d - 1) * s) tensor.dims tensor.strides).sum ∧
    (tensor.strides = getFullyPackedStrides tensor.dims →
      getTensorNumElements tensor = tensor.dims.prod) ∧
    getTensorNumElements ⟨DataType.float, [2, 2], [4, 1]⟩ ≠ ([2, 2] : List Int).prod := by
  refine ⟨getTensorNumElements_eq_sum tensor, ?_, by decide⟩
  intro hpacked
  rw [getTensorNumElements_eq_sum, hpacked, packed_span_eq_prod]

/-- Witness for C9: the packed tensor dims [2,3], strides [3,1] has
2*3 = 6 elements. -/
theorem getTensorNumElements_spec_witness :
    ([3, 1] : List Int) = getFullyPackedStrides [2, 3] ∧
    getTensorNumElements ⟨DataType.float, [2, 3], [3, 1]⟩ = ([2, 3] : List Int).prod :=
  ⟨by decide, (getTensorNumElements_spec ⟨DataType.float, [2, 3], [3, 1]⟩).2.1 (by decide)⟩

/-- C10: `GetFilterNumElements` is exactly the product of the filter's
dimensions; `CreateFilterData` sizes its buffer by this plain product,
whereas `CreateTensorData` sizes tensor buffers by the address-span formula
`GetTensorNumElements`. -/
theorem getFilterNumElements_spec (filter : FilterDesc) :
    getFilterNumElements filter = filter.dims.prod ∧
    (∀ data, createFilterData filter = .ok data → data.numElements = filter.dims.prod) ∧
    (∀ (tensor : TensorDesc) (data : DeviceData), createTensorData tensor = .ok data →
      data.numElements = getTensorNumElements tensor) := by
  have hprod : getFilterNumElements filter = filter.dims.prod := by
    rw [getFilterNumElements, foldl_mul_eq, one_mul]
  refine ⟨hprod, ?_, ?_⟩
  · intro data h
    rw [createFilterData] at h
    cases hdt : filter.dataType <;> rw [hdt] at h <;>
      simp only [createDeviceDataHelper] at h <;> first
      | (cases h; exact hprod)
      | cases h
  · intro tensor data h
    rw [createTensorData] at h
    cases hdt : tensor.dataType <;> rw [hdt] at h <;>
      simp only [createDeviceDataHelper] at h <;> first
      | (cases h; rfl)
      | cases h

/-- Witness for C10: the 2x3x4 float filter's random buffer holds
24 = 2*3*4 elements. -/
theorem getFilterNumElements_spec_witness :
    (⟨DataType.float, 24⟩ : DeviceData).numElements
      = ([2, 3, 4] : List Int).prod :=
  (getFilterNumElements_spec ⟨DataType.float, TensorFormat.nchw, [2, 3, 4]⟩).2.1
    ⟨DataType.float, 24⟩ rfl

/-- C8: a tensor built without explicit strides (default NCHW format, any
rank) carries derived strides obeying the packed-stride law: the stride
list has one entry per axis and `stride[i] = product(dimensions[i+1:])`. -/
theorem createTensorDescriptor_packed_stride_law (proto : TensorConfig)
    (d : TensorDesc) (i : Nat)
    (hstride : proto.stride = [])
    (hformat : proto.format = some TensorFormat.nchw)
    (hok : createTensorDescriptor proto = .ok d)
    (hi : i < d.dims.length) :
    d.dims = proto.dimension ∧ d.strides.length = d.dims.length ∧
    d.strides.getD i 0 = (d.dims.drop (i + 1)).prod := by
  by_cases h4 : proto.dimension.length = 4
  · obtain ⟨hdims, hstrides⟩ :=
      createTensorDescriptor_4d_path proto d TensorFormat.nchw hstride hformat h4 hok
    have hd := eq_four_of_length proto.dimension h4
    rw [hdims, hd] at hi
    simp only [List.length_cons, List.length_nil] at hi
    refine ⟨hdims, ?_, ?_⟩
    · rw [hstrides, hdims, hd]
      simp [format4dStrides]
    · rw [hstrides, hdims, hd]
      interval_cases i <;> simp [format4dStrides, mul_assoc]
  · obtain ⟨hdims, hstrides⟩ :=
      createTensorDescriptor_packed_path proto d hstride hformat h4 hok
    refine ⟨hdims, ?_, ?_⟩
    · rw [hstrides, hdims, getFullyPackedStrides_length]
    · rw [hstrides, hdims, getFullyPackedStrides_getD]
      rw [hdims] at hi
      exact hi

/-- Witness for C8 at the rank-3 tensor with dimensions [2,3,4]: the
derived strides are [12,4,1], and axis 0 gets 12 = 3*4. -/
theorem createTensorDescriptor_packed_stride_law_witness :
    (⟨DataType.float, [2, 3, 4], [12, 4, 1]⟩ : TensorDesc).strides.getD 0 0
      = ((⟨DataType.float, [2, 3, 4], [12, 4, 1]⟩ : TensorDesc).dims.drop 1).prod :=
  (createTensorDescriptor_packed_stride_law
    ⟨some DataType.float, [2, 3, 4], [], some TensorFormat.nchw⟩
    ⟨DataType.float, [2, 3, 4], [12, 4, 1]⟩ 0 rfl rfl rfl (by decide)).2.2

/-- C2 counterexample: the tensor configuration with BOTH explicit strides
and a named format is rejected through the fatal `CHECK` channel (process
abort), not through a structured error returned to the caller. -/
theorem createTensorDescriptor_both_given_fatal :
    createTensorDescriptor ⟨some DataType.float, [2, 2], [2, 1], some TensorFormat.nchw⟩
      = .error (.fatalCheck "exactly one of stride and format must be given") ∧
    isStructuredBuildResult (createTensorDescriptor
      ⟨some DataType.float, [2, 2], [2, 1], some TensorFormat.nchw⟩) = false :=
  ⟨rfl, rfl⟩

/-- C2 (amended): a malformed tensor configuration — both explicit strides
and a named format given, or neither — makes the tensor build fail through
the fatal check channel, never yielding a (half-initialized) descriptor and
never recovering silently; the structured-error channel is not used for
this malformation. -/
theorem createTensorDescriptor_malformed_aborts (proto : TensorConfig)
    (hdt : proto.dataType.isSome = true)
    (hm : proto.stride.isEmpty ≠ proto.format.isSome) :
    createTensorDescriptor proto
      = .error (.fatalCheck "exactly one of stride and format must be given") := by
  obtain ⟨dataType, hdt⟩ := Option.isSome_iff_exists.mp hdt
  simp only [createTensorDescriptor, hdt]
  rw [if_neg hm]

/-- Witness for C2's amended theorem: the configuration with neither
strides nor a format aborts fatally. -/
theorem createTensorDescriptor_malformed_aborts_witness :
    createTensorDescriptor ⟨some DataType.float, [2, 2], [], none⟩
      = .error (.fatalCheck "exactly one of stride and format must be given") :=
  createTensorDescriptor_malformed_aborts ⟨some DataType.float, [2, 2], [], none⟩
    rfl (by decide)

lemma getSupportedConvolutionAlgosImpl_eq (mk : Nat → ConvolutionAlgo)
    (getWorkspaceSize : ConvolutionAlgo → Except String Nat)
    (workspaceLimit : Nat) (l : List Nat) :
    (l.filterMap fun i =>
      let algo := mk i
      match getWorkspaceSize algo with
      | .ok size => if size ≤ workspaceLimit then some algo else none
      | .error _ => none)
    = (l.filter fun i =>
        match getWorkspaceSize (mk i) with
        | .ok size => decide (size ≤ workspaceLimit)
        | .error _ => false).map mk := by
  induction l with
  | nil => rfl
  | cons a l ih =>
    simp only [List.filterMap_cons, List.filter_cons]
    cases h : getWorkspaceSize (mk a) with
    | ok size =>
      by_cases hs : size ≤ workspaceLimit
      · simp [h, hs, ih]
      · simp [h, hs, ih]
    | error e => simp [h, ih]

lemma mkDirectionAlgo_algoId (direction : ConvolutionDirection) (i : Nat) :
    (mkDirectionAlgo direction i).algoId = i := by
  cases direction <;> rfl

lemma getSupportedConvolutionAlgos_eq (direction : ConvolutionDirection)
    (getWorkspaceSize : ConvolutionAlgo → Except String Nat) (workspaceLimit : Nat) :
    getSupportedConvolutionAlgos direction getWorkspaceSize workspaceLimit
      = ((List.range (directionAlgoCount direction)).filter fun i =>
          match getWorkspaceSize (mkDirectionAlgo direction i) with
          | .ok size => decide (size ≤ workspaceLimit)
          | .error _ => false).map (mkDirectionAlgo direction) := by
  cases direction <;>
    exact getSupportedConvolutionAlgosImpl_eq _ getWorkspaceSize workspaceLimit _

/-- C1: `GetSupportedConvolutionAlgos` examines every identifier value
`0..K-1` of the direction's space (`K` the direction's algorithm count) and
returns, in ascending numeric identifier order, exactly those identifiers
whose workspace-cost query succeeds with a cost within the limit. -/
theorem getSupportedConvolutionAlgos_spec (direction : ConvolutionDirection)
    (getWorkspaceSize : ConvolutionAlgo → Except String Nat) (workspaceLimit : Nat) :
    List.Sorted (· < ·)
      ((getSupportedConvolutionAlgos direction getWorkspaceSize workspaceLimit).map
        ConvolutionAlgo.algoId) ∧
    ∀ i : Nat,
      (i ∈ (getSupportedConvolutionAlgos direction getWorkspaceSize workspaceLimit).map
          ConvolutionAlgo.algoId) ↔
        (i < directionAlgoCount direction ∧
          ∃ cost, getWorkspaceSize (mkDirectionAlgo direction i) = .ok cost ∧
            cost ≤ workspaceLimit) := by
  have hmap : (getSupportedConvolutionAlgos direction getWorkspaceSize workspaceLimit).map
      ConvolutionAlgo.algoId
      = (List.range (directionAlgoCount direction)).filter fun i =>
          match getWorkspaceSize (mkDirectionAlgo direction i) with
          | .ok size => decide (size ≤ workspaceLimit)
          | .error _ => false := by
    rw [getSupportedConvolutionAlgos_eq, List.map_map]
    have hfun : ConvolutionAlgo.algoId ∘ mkDirectionAlgo direction = id :=
      funext fun i => mkDirectionAlgo_algoId direction i
    rw [hfun, List.map_id]
  constructor
  · rw [hmap]
    exact (List.pairwise_lt_range _).filter _
  · intro i
    rw [hmap, List.mem_filter, List.mem_range]
    constructor
    · rintro ⟨hlt, hp⟩
      refine ⟨hlt, ?_⟩
      cases h : getWorkspaceSize (mkDirectionAlgo direction i) with
      | ok cost =>
        rw [h] at hp
        exact ⟨cost, rfl, by simpa using hp⟩
      | error e => rw [h] at hp; cases hp
    · rintro ⟨hlt, cost, hcost, hle⟩
      exact ⟨hlt, by rw [hcost]; simpa using hle⟩

/-- C7: the alpha and beta scaling factors handed to the engine by
`RunConvolution` are stored as 64-bit values exactly when the relevant
descriptor's element kind is double — the output tensor descriptor for
forward, the input tensor descriptor for backward-data, and the filter
descriptor for backward-filter. -/
theorem runConvolution_scaling_width (algo : ConvolutionAlgo) (alpha beta : Rat)
    (inputDesc : TensorDesc) (filterDesc : FilterDesc) (outputDesc : TensorDesc)
    (workspaceSize : Nat) :
    ((runConvolutionCall algo alpha beta inputDesc filterDesc outputDesc
        workspaceSize).alphaScale.isDouble = true ↔
      (match algo with
        | .fwd _ => outputDesc.dataType
        | .bwdData _ => inputDesc.dataType
        | .bwdFilter _ => filterDesc.dataType) = DataType.double) ∧
    ((runConvolutionCall algo alpha beta inputDesc filterDesc outputDesc
        workspaceSize).betaScale.isDouble = true ↔
      (match algo with
        | .fwd _ => outputDesc.dataType
        | .bwdData _ => inputDesc.dataType
        | .bwdFilter _ => filterDesc.dataType) = DataType.double) := by
  cases algo with
  | fwd id =>
    by_cases h : outputDesc.dataType = DataType.double <;>
      simp [runConvolutionCall, mkScalingFactor, ScalingFactor.isDouble, h]
  | bwdData id =>
    by_cases h : inputDesc.dataType = DataType.double <;>
      simp [runConvolutionCall, mkScalingFactor, ScalingFactor.isDouble, h]
  | bwdFilter id =>
    by_cases h : filterDesc.dataType = DataType.double <;>
      simp [runConvolutionCall, mkScalingFactor, ScalingFactor.isDouble, h]

/-- C6: `FindConvolutionAlgo` consults the allocator only for a workspace
of exactly the limit's bytes and the engine only for exactly one candidate
under that byte budget (its result depends on nothing else); when the
allocation and the engine call succeed, it returns the structured
"No supported algorithm" error precisely when the engine reported zero
results or a non-success status for its single candidate, and otherwise
returns that candidate's identifier. -/
theorem findConvolutionAlgo_spec (allocateDeviceMemory : Nat → Except String Unit)
    (findAlgorithmEx : ConvolutionDirection → Nat → Nat → FindAlgoResult)
    (direction : ConvolutionDirection) (workspaceLimit : Nat) :
    (∀ (alloc₂ : Nat → Except String Unit)
       (find₂ : ConvolutionDirection → Nat → Nat → FindAlgoResult),
      alloc₂ workspaceLimit = allocateDeviceMemory workspaceLimit →
      find₂ direction 1 workspaceLimit = findAlgorithmEx direction 1 workspaceLimit →
      findConvolutionAlgo alloc₂ find₂ direction workspaceLimit
        = findConvolutionAlgo allocateDeviceMemory findAlgorithmEx direction workspaceLimit) ∧
    (allocateDeviceMemory workspaceLimit = .ok () →
      (findAlgorithmEx direction 1 workspaceLimit).callStatus = CudnnStatus.success →
      ((findConvolutionAlgo allocateDeviceMemory findAlgorithmEx direction workspaceLimit
          = .error "No supported algorithm") ↔
        ((findAlgorithmEx direction 1 workspaceLimit).returnedAlgoCount = 0 ∨
          (findAlgorithmEx direction 1 workspaceLimit).perf.status ≠ CudnnStatus.success)) ∧
      (¬((findAlgorithmEx direction 1 workspaceLimit).returnedAlgoCount = 0 ∨
          (findAlgorithmEx direction 1 workspaceLimit).perf.status ≠ CudnnStatus.success) →
        findConvolutionAlgo allocateDeviceMemory findAlgorithmEx direction workspaceLimit
          = .ok (mkDirectionAlgo direction
              (findAlgorithmEx direction 1 workspaceLimit).perf.algo))) := by
  constructor
  · intro alloc₂ find₂ ha hf
    cases direction <;> · rw [findConvolutionAlgo, findConvolutionAlgo, ha, hf]
  · intro halloc hcall
    have hkey : (findConvolutionAlgo allocateDeviceMemory findAlgorithmEx direction
          workspaceLimit)
        = toConvolutionAlgo (mkDirectionAlgo direction)
            (findAlgorithmEx direction 1 workspaceLimit).perf
            (findAlgorithmEx direction 1 workspaceLimit).returnedAlgoCount := by
      cases direction <;>
        · rw [findConvolutionAlgo, halloc]
          simp only [hcall, getStatus]
          rfl
    rw [hkey]
    by_cases hbad : (findAlgorithmEx direction 1 workspaceLimit).returnedAlgoCount = 0 ∨
        (findAlgorithmEx direction 1 workspaceLimit).perf.status ≠ CudnnStatus.success
    · rw [toConvolutionAlgo, if_pos hbad]
      exact ⟨⟨fun _ => hbad, fun _ => rfl⟩, fun h => absurd hbad h⟩
    · rw [toConvolutionAlgo, if_neg hbad]
      exact ⟨⟨fun h => Except.noConfusion h, fun hb => absurd hb hbad⟩, fun _ => rfl⟩

/-- Witness for C6: with a succeeding allocator and an engine reporting one
successful candidate with identifier 3, the forward search under a 5-byte
budget returns forward algorithm 3. -/
theorem findConvolutionAlgo_spec_witness :
    findConvolutionAlgo (fun _ => .ok ())
      (fun _ _ _ => ⟨CudnnStatus.success, 1, ⟨CudnnStatus.success, 3⟩⟩)
      ConvolutionDirection.fwd 5 = .ok (ConvolutionAlgo.fwd 3) :=
  ((findConvolutionAlgo_spec (fun _ => .ok ())
      (fun _ _ _ => ⟨CudnnStatus.success, 1, ⟨CudnnStatus.success, 3⟩⟩)
      ConvolutionDirection.fwd 5).2 rfl rfl).2 (by simp)

lemma cudnnSetTensorNdDescriptor_ok (dataType : DataType) (dims strides : List Int)
    (d : TensorDesc) (h : cudnnSetTensorNdDescriptor dataType dims strides = .ok d) :
    d = ⟨dataType, dims, strides⟩ := by
  rw [cudnnSetTensorNdDescriptor] at h
  split_ifs at h
  cases h
  rfl

lemma cudnnSetTensor4dDescriptor_ok (format : TensorFormat) (dataType : DataType)
    (n c h w : Int) (d : TensorDesc)
    (hok : cudnnSetTensor4dDescriptor format dataType n c h w = .ok d) :
    d = ⟨dataType, [n, c, h, w], format4dStrides format n c h w⟩ := by
  rw [cudnnSetTensor4dDescriptor] at hok
  split_ifs at hok
  cases hok
  rfl

lemma computeOutputDimensions_length (inputDims filterDims pad : List Int) :
    (computeOutputDimensions inputDims filterDims pad).length = inputDims.length := by
  simp [computeOutputDimensions]

lemma computeOutputDimensions_getD (inputDims filterDims pad : List Int) (i : Nat)
    (h : i < inputDims.length) :
    (computeOutputDimensions inputDims filterDims pad).getD i 0
      = if i = 0 then inputDims.getD 0 0
        else if i = 1 then filterDims.getD 0 0
        else inputDims.getD i 0 + 2 * pad.getD (i - 2) 0 - filterDims.getD i 0 + 1 := by
  rw [computeOutputDimensions, List.getD_eq_getElem?_getD, List.getElem?_map,
    List.getElem?_range h]
  rfl

/-- The non-4-D branch of `createOutputDescriptor`, on success, yields the
loop-computed output dimensions with fully-packed strides. -/
lemma createOutputDescriptor_nonpacked_path (input : TensorDesc) (filter : FilterDesc)
    (conv : ConvDesc) (out : TensorDesc)
    (hnot4 : input.dims.length ≠ 4)
    (hok : createOutputDescriptor TensorFormat.nchw input filter conv = .ok out) :
    out.dims = computeOutputDimensions input.dims filter.dims conv.pad ∧
    out.strides = getFullyPackedStrides (computeOutputDimensions input.dims
      filter.dims conv.pad) ∧
    out.dataType = input.dataType := by
  rw [createOutputDescriptor, if_neg hnot4] at hok
  split_ifs at hok with h2 h3 h4 h5 h6
  cases hset : cudnnSetTensorNdDescriptor input.dataType
      (computeOutputDimensions input.dims filter.dims conv.pad)
      (getFullyPackedStrides (computeOutputDimensions input.dims filter.dims conv.pad))
  next e =>
    simp only [hset, returnIfErrorStatus] at hok
    exact Except.noConfusion hok
  next a =>
    have ha := cudnnSetTensorNdDescriptor_ok _ _ _ _ hset
    simp only [hset, returnIfErrorStatus] at hok
    cases hok
    rw [ha]
    exact ⟨rfl, rfl, rfl⟩

/-- C3: for non-4-D inputs (rank at least 2) in the supported
configuration (NCHW, unit stride/dilation, one group), `createOutputDescriptor`
computes output axis 0 from the input batch dimension, axis 1 from the
filter's first dimension and each further axis as
`input + 2*pad - filter + 1`, with fully-packed output strides; and for 4-D
inputs with unit stride/dilation and one group, the engine's closed-form
path yields the same dimensions `[N, F, H+2pH-kH+1, W+2pW-kW+1]`. -/
theorem createOutputDescriptor_spec :
    (∀ (input : TensorDesc) (filter : FilterDesc) (conv : ConvDesc) (out : TensorDesc),
      input.dims.length ≠ 4 →
      2 ≤ input.dims.length →
      createOutputDescriptor TensorFormat.nchw input filter conv = .ok out →
      (out.dims.length = input.dims.length ∧
        out.dims.getD 0 0 = input.dims.getD 0 0 ∧
        out.dims.getD 1 0 = filter.dims.getD 0 0 ∧
        (∀ i, 2 ≤ i → i < input.dims.length →
          out.dims.getD i 0 = input.dims.getD i 0 + 2 * conv.pad.getD (i - 2) 0
            - filter.dims.getD i 0 + 1) ∧
        out.strides = getFullyPackedStrides out.dims)) ∧
    (∀ (dataType : DataType) (format : TensorFormat) (inputStrides : List Int)
       (n c h w f kh kw ph pw : Int) (out : TensorDesc),
      createOutputDescriptor format ⟨dataType, [n, c, h, w], inputStrides⟩
          ⟨dataType, TensorFormat.nchw, [f, c, kh, kw]⟩ ⟨[ph, pw], [1, 1], [1, 1], 1⟩
        = .ok out →
      out.dims = [n, f, h + 2 * ph - kh + 1, w + 2 * pw - kw + 1]) := by
  constructor
  · intro input filter conv out hnot4 hrank hok
    obtain ⟨hdims, hstrides, _⟩ :=
      createOutputDescriptor_nonpacked_path input filter conv out hnot4 hok
    refine ⟨?_, ?_, ?_, ?_, ?_⟩
    · rw [hdims, computeOutputDimensions_length]
    · rw [hdims, computeOutputDimensions_getD _ _ _ 0 (by omega)]
      simp
    · rw [hdims, computeOutputDimensions_getD _ _ _ 1 (by omega)]
      simp
    · intro i h2i hilt
      rw [hdims, computeOutputDimensions_getD _ _ _ i hilt]
      rw [if_neg (by omega), if_neg (by omega)]
    · rw [hstrides, hdims]
  · intro dataType format inputStrides n c h w f kh kw ph pw out hok
    rw [createOutputDescriptor] at hok
    rw [if_pos (by simp)] at hok
    simp only [List.getD_cons_zero, List.getD_cons_succ] at hok
    cases hset : cudnnSetTensor4dDescriptor format dataType n f
        (conv2dForwardOutputDim h kh ph 1 1) (conv2dForwardOutputDim w kw pw 1 1)
    next e =>
      rw [hset] at hok
      simp only [returnIfErrorStatus] at hok
      exact Except.noConfusion hok
    next a =>
      have ha := cudnnSetTensor4dDescriptor_ok _ _ _ _ _ _ _ hset
      rw [hset] at hok
      simp only [returnIfErrorStatus] at hok
      cases hok
      rw [ha]
      simp only [conv2dForwardOutputDim, Int.ediv_one, one_mul, mul_one]
      have hh : 1 + (h + 2 * ph - (kh - 1 + 1)) = h + 2 * ph - kh + 1 := by ring
      have hw : 1 + (w + 2 * pw - (kw - 1 + 1)) = w + 2 * pw - kw + 1 := by ring
      rw [hh, hw]

/-- Witness for C3: a rank-5 input [1,2,5,5,5] with a [3,2,3,3,3] filter
and pads [0,0,0] yields output [1,3,3,3,3] with packed strides; and the 4-D
input [1,1,4,4] with filter [1,1,3,3] and zero padding yields output
dimensions [1,1,2,2] on the engine's closed-form path. -/
theorem createOutputDescriptor_spec_witness :
    ((⟨DataType.float, [1, 3, 3, 3, 3], [81, 27, 9, 3, 1]⟩ : TensorDesc).dims.getD 2 0
      = ([1, 2, 5, 5, 5] : List Int).getD 2 0 + 2 * ([0, 0, 0] : List Int).getD 0 0
        - ([3, 2, 3, 3, 3] : List Int).getD 2 0 + 1) ∧
    ((⟨DataType.float, [1, 1, 2, 2], [4, 4, 2, 1]⟩ : TensorDesc).dims
      = [1, 1, (4 : Int) + 2 * 0 - 3 + 1, (4 : Int) + 2 * 0 - 3 + 1]) := by
  constructor
  · have h := (createOutputDescriptor_spec.1 ⟨DataType.float, [1, 2, 5, 5, 5], [250, 125, 25, 5, 1]⟩
      ⟨DataType.float, TensorFormat.nchw, [3, 2, 3, 3, 3]⟩ ⟨[0, 0, 0], [1, 1, 1], [1, 1, 1], 1⟩
      ⟨DataType.float, [1, 3, 3, 3, 3], [81, 27, 9, 3, 1]⟩ (by decide) (by decide) rfl)
    exact h.2.2.2.1 2 (by decide) (by decide)
  · exact createOutputDescriptor_spec.2 DataType.float TensorFormat.nchw [16, 16, 4, 1]
      1 1 4 4 1 3 3 0 0 ⟨DataType.float, [1, 1, 2, 2], [4, 4, 2, 1]⟩ rfl

end CudnnUtil
